import Mathlib

/-!
Verification development for the DevOpsModule-4-Activity repository.

Part A embeds `deploy.sh` (the bash deployment orchestrator): the external
world a run observes is an `Env` record giving the result of each external
command the script invokes, the observable container-affecting commands and
phase milestones are `Event`s, and `runScript` is a section-by-section
transcription of the script under `set -e` semantics.

Part B embeds the transactions service route
`GET /api/transactions/:email` from `transactions/server.js`.
-/

/-! ## Part A: the deployment script -/

/-- Outcome of the bash `while [ $RETRY_COUNT -lt $MAX_RETRIES ]` health-check
loop: `success k` is the `break` after the probe succeeded on (1-based)
attempt `k`; `fatal` is the `exit 1` taken when the incremented counter
reaches `MAX_RETRIES` with every probe having failed; `fellThrough` is the
loop guard failing with neither (only possible when the budget is 0). -/
inductive LoopResult where
  | success (attempt : Nat)
  | fatal
  | fellThrough
deriving DecidableEq

/-- Faithful transcription of the script's health-check loop body
(lines 181-193 / 198-210): while `rc < maxRetries`, probe attempt `rc`
(0-based); on success break; otherwise increment, `exit 1` if the counter
reached `maxRetries`, else sleep and iterate.  `fuel` is an upper bound on
the remaining iterations, added only to make the recursion structural; the
wrapper `healthLoop` supplies enough fuel that it never runs out.  The
returned list records every value the retry counter takes. -/
def healthLoopAux (probe : Nat → Bool) (maxRetries : Nat) :
    Nat → Nat → List Nat × LoopResult
  | rc, 0 => ([rc], .fellThrough)
  | rc, fuel + 1 =>
    if rc < maxRetries then
      if probe rc then ([rc], .success (rc + 1))
      else if rc + 1 = maxRetries then ([rc, rc + 1], .fatal)
      else
        let r := healthLoopAux probe maxRetries (rc + 1) fuel
        (rc :: r.1, r.2)
    else ([rc], .fellThrough)

/-- The health-check loop started at counter value `rc`
(the script starts it at `RETRY_COUNT=0`). -/
def healthLoop (probe : Nat → Bool) (maxRetries rc : Nat) :
    List Nat × LoopResult :=
  healthLoopAux probe maxRetries rc (maxRetries - rc)

/-- `MAX_RETRIES=10` (deploy.sh line 179). -/
def MAX_RETRIES : Nat := 10

/-- `REQUIRED_PORTS=(80 5000 3000 27017)` (deploy.sh line 64). -/
def REQUIRED_PORTS : List Nat := [80, 5000, 3000, 27017]

/-- The external world one run of the script observes: the result of each
command the script's control flow branches on.  Health probes are indexed by
the (0-based) attempt number at which the script issues them. -/
structure Env where
  /-- `command -v docker` succeeds (line 40). -/
  dockerInstalled : Bool
  /-- `command -v docker-compose` or `docker compose version` succeeds (line 48). -/
  composeInstalled : Bool
  /-- `docker info` succeeds (line 56). -/
  daemonRunning : Bool
  /-- first occupancy check of a port: `netstat ... | grep -q` or `lsof` (line 66). -/
  portCheck1 : Nat → Bool
  /-- re-check of a port after `docker-compose down` and `sleep 2` (line 70). -/
  portCheck2 : Nat → Bool
  /-- `docker-compose.yaml` or `docker-compose.yml` exists (line 91). -/
  composeFile : Bool
  /-- `banking-backend` directory exists (line 99). -/
  backendDir : Bool
  /-- `studentportfolio` directory exists (line 103). -/
  portfolioDir : Bool
  /-- `nginx.conf` exists (line 111). -/
  nginxConf : Bool
  /-- exit status of `docker-compose down -v` in Section 3 (line 126),
  before the `|| true` is applied. -/
  downVStatus : Nat
  /-- `docker images | grep -E "mongo|backend|portfolio|nginx|assignment"`
  finds at least one matching line (line 154). -/
  imagesMatch : Bool
  /-- output of `docker ps --filter "name=nginx" --format` (line 162),
  empty when no such container is running. -/
  nginxId : String
  /-- `curl -f http://localhost:5000/api/login` succeeds on attempt `i` (line 182). -/
  backendLogin : Nat → Bool
  /-- `curl -s http://localhost:5000` succeeds on attempt `i` (line 182). -/
  backendRoot : Nat → Bool
  /-- `curl -f http://localhost:80` succeeds on attempt `i` (line 199). -/
  frontendStrict : Nat → Bool
  /-- `curl -s http://localhost:80 | grep -q "Pixel River"` succeeds on
  attempt `i` (line 199). -/
  frontendMarker : Nat → Bool
  /-- `docker inspect nginx:alpine > nginx-logs.txt` succeeds (line 224). -/
  inspectOk : Bool

/-- Observable milestones of a run: the container-affecting commands the
script issues and the per-section markers its logs announce, in program
order. -/
inductive Event where
  /-- `docker-compose down` issued from the port-availability loop (line 68). -/
  | portTeardown (port : Nat)
  /-- "Port still in use, continuing anyway" warning (line 71). -/
  | portWarning (port : Nat)
  /-- `docker-compose down -v` of the cleanup section (line 126). -/
  | cleanup
  /-- `docker-compose up --build -d` (line 138). -/
  | buildStart
  /-- `docker images | grep -E ...` issued (line 154). -/
  | listImages
  /-- `docker ps` issued (line 158). -/
  | listContainers
  /-- nginx container id resolved non-empty (line 167). -/
  | resolvedNginx (id : String)
  /-- the Section 6 health-check banner (line 173). -/
  | healthStart
  /-- "Backend is responding" logged on the break path (line 183). -/
  | backendCheckPassed
  /-- "Nginx is responding and serving content" logged (line 200). -/
  | frontendCheckPassed
  /-- `docker inspect nginx:alpine` done (line 224). -/
  | inspectImage
  /-- Section 8 deployment summary printed (lines 257-280). -/
  | summaryShown
deriving DecidableEq

/-- The container-affecting commands among the events. -/
def isContainerAction : Event → Bool
  | .portTeardown _ => true
  | .cleanup => true
  | .buildStart => true
  | _ => false

/-- `cmd || true` (lines 68 and 126): whatever status `cmd` had, the
compound command's status is 0, so `set -e` never fires on it. -/
def orTrue (cmdStatus : Nat) : Nat :=
  if cmdStatus = 0 then 0 else 0

/-- Section 1's port-availability loop (lines 64-74): for each required
port, if the first occupancy check reports it busy, issue a
`docker-compose down` (status discarded via `|| true`), sleep, re-check,
and emit only a warning when still busy.  No branch exits. -/
def portPhase (e : Env) : List Event :=
  REQUIRED_PORTS.flatMap fun p =>
    if e.portCheck1 p then
      Event.portTeardown p ::
        (if e.portCheck2 p then [Event.portWarning p] else [])
    else []

/-- The backend probe of one attempt: `curl -f .../api/login || curl -s ...`
(line 182). -/
def backendProbe (e : Env) (i : Nat) : Bool :=
  e.backendLogin i || e.backendRoot i

/-- The frontend probe of one attempt:
`curl -f localhost:80 || curl -s localhost:80 | grep -q "Pixel River"`
(line 199). -/
def frontendProbe (e : Env) (i : Nat) : Bool :=
  e.frontendStrict i || e.frontendMarker i

/-- Sections 7-8 (lines 224-280): `docker inspect` redirected to a file is
subject to `set -e`; the subsequent grep/sed/head extraction pipelines all
end in a status-0 command, then the summary prints and the script exits 0. -/
def sec7to8 (e : Env) (t : List Event) : List Event × Nat :=
  if e.inspectOk then (t ++ [Event.inspectImage, Event.summaryShown], 0)
  else (t, 1)

/-- The frontend/nginx health check (lines 197-210): a fatal loop outcome is
`exit 1`; a break (or an exhausted guard) continues into Section 7. -/
def sec6frontend (e : Env) (t : List Event) : List Event × Nat :=
  match (healthLoop (frontendProbe e) MAX_RETRIES 0).2 with
  | .fatal => (t, 1)
  | .success _ => sec7to8 e (t ++ [Event.frontendCheckPassed])
  | .fellThrough => sec7to8 e t

/-- The backend health check (lines 179-193), then the frontend one. -/
def sec6to8 (e : Env) (t : List Event) : List Event × Nat :=
  match (healthLoop (backendProbe e) MAX_RETRIES 0).2 with
  | .fatal => (t, 1)
  | .success _ => sec6frontend e (t ++ [Event.backendCheckPassed])
  | .fellThrough => sec6frontend e t

/-- Section 5 (lines 153-167): `docker images | grep -E ...` is fatal under
`set -e` when grep matches nothing; then `docker ps`; then the nginx
container id is resolved and an empty id is `exit 1`. -/
def sec5to8 (e : Env) (t : List Event) : List Event × Nat :=
  if e.imagesMatch then
    if e.nginxId = "" then (t ++ [Event.listImages, Event.listContainers], 1)
    else
      sec6to8 e (t ++ [Event.listImages, Event.listContainers,
        Event.resolvedNginx e.nginxId, Event.healthStart])
  else (t ++ [Event.listImages], 1)

/-- Sections 2-4 (lines 89-142): the four file/directory presence checks,
each `exit 1` when absent; then the `docker-compose down -v || true`
cleanup (its `|| true` status cannot trip `set -e`); then
`docker-compose up --build -d` and the fixed 30s settle sleep. -/
def sec2to8 (e : Env) (t : List Event) : List Event × Nat :=
  if e.composeFile then
    if e.backendDir then
      if e.portfolioDir then
        if e.nginxConf then
          if orTrue e.downVStatus = 0 then
            sec5to8 e (t ++ [Event.cleanup, Event.buildStart])
          else (t ++ [Event.cleanup], 1)
        else (t, 1)
      else (t, 1)
    else (t, 1)
  else (t, 1)

/-- The whole of deploy.sh: Section 1's tool checks (each `exit 1` on
failure), the port-availability loop, then Sections 2-8.  Returns the
ordered event trace and the process exit code. -/
def runScript (e : Env) : List Event × Nat :=
  if e.dockerInstalled then
    if e.composeInstalled then
      if e.daemonRunning then
        sec2to8 e (portPhase e)
      else ([], 1)
    else ([], 1)
  else ([], 1)

/-! ## Part B: the transactions service route -/

/-- The calendar fields of a stored transaction's `timestamp` value as
`new Date(transaction.timestamp)` exposes them to the grouping key:
the month (1-12) and the year.  Nothing else about the timestamp value is
inspected by the route, which otherwise passes it through unchanged. -/
structure Timestamp where
  month : Nat
  year : Nat
deriving DecidableEq

/-- A document of the `transactions` collection as the route reads it. -/
structure Txn where
  email : String
  txType : String
  amount : Int
  timestamp : Timestamp
deriving DecidableEq

/-- The object pushed into a month's group (server.js lines 44-48):
the transaction's `type`, `amount` and `timestamp`, nothing else.
(`amount` is a JS number; the route performs no arithmetic on it, so any
carrier with decidable equality models it.) -/
structure TxnView where
  txType : String
  amount : Int
  timestamp : Timestamp
deriving DecidableEq

def txnView (t : Txn) : TxnView :=
  { txType := t.txType, amount := t.amount, timestamp := t.timestamp }

def monthNames : List String :=
  ["January", "February", "March", "April", "May", "June",
   "July", "August", "September", "October", "November", "December"]

/-- `date.toLocaleString("en-US", month long, year numeric)`
(server.js lines 35-38): the en-US long month name, a space, the year. -/
def monthYear (t : Timestamp) : String :=
  monthNames.getD (t.month - 1) "Invalid Date" ++ " " ++ toString t.year

/-- `acc[monthYear].push(entry)` on a JS object accumulator: append the
entry to the group of an existing key, else append a fresh singleton group
(object string keys keep insertion order). -/
def addToGroup : List (String × List TxnView) → String → TxnView →
    List (String × List TxnView)
  | [], k, v => [(k, [v])]
  | (k0, vs) :: rest, k, v =>
    if k0 = k then (k0, vs ++ [v]) :: rest
    else (k0, vs) :: addToGroup rest k v

/-- `transactions.reduce(...)` of server.js lines 33-51: left fold over the
fetched transactions, grouping each one's view under its month-year key. -/
def groupByMonth (transactions : List Txn) : List (String × List TxnView) :=
  transactions.foldl
    (fun acc t => addToGroup acc (monthYear t.timestamp) (txnView t)) []

/-- The route `GET /api/transactions/:email` (server.js lines 23-53) on the
happy path: `find({ email })` over the stored collection (kept in store
order), then the month grouping. -/
def apiTransactions (store : List Txn) (email : String) :
    List (String × List TxnView) :=
  groupByMonth (store.filter fun t => t.email == email)

/-- Reading a key of the grouped response object: the group stored under
that key, or the empty list when the key is absent. -/
def groupLookup : List (String × List TxnView) → String → List TxnView
  | [], _ => []
  | (k0, vs) :: rest, k => if k0 = k then vs else groupLookup rest k

/-- The keys of the grouped response object. -/
def groupKeys (l : List (String × List TxnView)) : List String :=
  l.map Prod.fst

/-! ## Concrete environments used to instantiate the theorems -/

/-- A run in which every external command succeeds: tools present, ports
free, files present, images built, nginx container up, every probe green. -/
def envAllGood : Env where
  dockerInstalled := true
  composeInstalled := true
  daemonRunning := true
  portCheck1 := fun _ => false
  portCheck2 := fun _ => false
  composeFile := true
  backendDir := true
  portfolioDir := true
  nginxConf := true
  downVStatus := 0
  imagesMatch := true
  nginxId := "a1b2c3d4"
  backendLogin := fun _ => true
  backendRoot := fun _ => false
  frontendStrict := fun _ => true
  frontendMarker := fun _ => false
  inspectOk := true

/-- Port 80 occupied at invocation and the compose file absent. -/
def envC1 : Env :=
  { envAllGood with
    portCheck1 := fun p => p == 80
    composeFile := false }

/-- All preconditions fine but the compose file absent (ports free). -/
def envFileMissing : Env :=
  { envAllGood with composeFile := false }

/-- A healthy deployment whose backend never answers either probe. -/
def envC3 : Env :=
  { envAllGood with
    backendLogin := fun _ => false
    backendRoot := fun _ => false }

/-- A run whose Section 3 teardown command itself fails (status 7). -/
def envC4 : Env :=
  { envAllGood with downVStatus := 7 }

/-- Port 80 occupied both before and after the cleanup attempt. -/
def envC5 : Env :=
  { envAllGood with
    portCheck1 := fun p => p == 80
    portCheck2 := fun p => p == 80 }

/-- A run in which no nginx container is found after the deploy. -/
def envC7 : Env :=
  { envAllGood with nginxId := "" }

/-- A run in which the image listing matches none of the grep patterns. -/
def envC9 : Env :=
  { envAllGood with imagesMatch := false }

/-- The login path and the strict frontend probe never answer, but the
plain root probe and the page-marker probe do. -/
def envC10 : Env :=
  { envAllGood with
    backendLogin := fun _ => false
    backendRoot := fun _ => true
    frontendStrict := fun _ => false
    frontendMarker := fun _ => true }

/-! ## Helper lemmas: the health-check loop -/

/-- Full characterization of the loop outcome: it is `fatal` exactly when
every attempt in the remaining window fails, and `success k` exactly when
attempt `k` (1-based) is the first succeeding one inside the window. -/
theorem healthLoopAux_spec (probe : Nat → Bool) (maxRetries : Nat) :
    ∀ fuel rc, maxRetries ≤ rc + fuel → rc < maxRetries →
      (((healthLoopAux probe maxRetries rc fuel).2 = .fatal ↔
          ∀ j, rc ≤ j → j < maxRetries → probe j = false) ∧
        ∀ k, ((healthLoopAux probe maxRetries rc fuel).2 = .success k ↔
          (rc < k ∧ k ≤ maxRetries ∧ probe (k - 1) = true ∧
            ∀ j, rc ≤ j → j < k - 1 → probe j = false))) := by
  intro fuel
  induction fuel with
  | zero => intro rc h1 h2; omega
  | succ fuel ih =>
    intro rc h1 h2
    simp only [healthLoopAux, if_pos h2]
    cases hp : probe rc with
    | true =>
      simp only [if_pos hp]
      constructor
      · constructor
        · intro h; exact absurd h (by simp)
        · intro h
          have := h rc le_rfl h2
          simp [hp] at this
      · intro k
        constructor
        · intro h
          have hk : rc + 1 = k := by
            have := LoopResult.success.inj h
            exact this
          subst hk
          refine ⟨by omega, by omega, by simpa using hp, ?_⟩
          intro j hj1 hj2
          omega
        · rintro ⟨hk1, hk2, hk3, hk4⟩
          have hk : k = rc + 1 := by
            by_contra hne
            have hlt : rc < k - 1 := by omega
            have := hk4 rc le_rfl hlt
            simp [hp] at this
          subst hk
          rfl
    | false =>
      simp only [hp, Bool.false_eq_true, if_false]
      by_cases h3 : rc + 1 = maxRetries
      · simp only [if_pos h3]
        constructor
        · constructor
          · intro _ j hj1 hj2
            have hj : j = rc := by omega
            subst hj
            exact hp
          · intro _; trivial
        · intro k
          constructor
          · intro h; exact absurd h (by simp)
          · rintro ⟨hk1, hk2, hk3, hk4⟩
            have hk : k = rc + 1 := by omega
            subst hk
            have : probe rc = true := by simpa using hk3
            simp [hp] at this
      · simp only [if_neg h3]
        obtain ⟨ihf, ihs⟩ := ih (rc + 1) (by omega) (by omega)
        constructor
        · rw [ihf]
          constructor
          · intro h j hj1 hj2
            rcases Nat.eq_or_lt_of_le hj1 with hj | hj
            · exact hj ▸ hp
            · exact h j (by omega) hj2
          · intro h j hj1 hj2
            exact h j (by omega) hj2
        · intro k
          rw [ihs k]
          constructor
          · rintro ⟨a, b, c, d⟩
            refine ⟨by omega, b, c, ?_⟩
            intro j hj1 hj2
            rcases Nat.eq_or_lt_of_le hj1 with hj | hj
            · exact hj ▸ hp
            · exact d j (by omega) hj2
          · rintro ⟨a, b, c, d⟩
            have hne : k ≠ rc + 1 := by
              intro hk
              subst hk
              have : probe rc = true := by simpa using c
              simp [hp] at this
            refine ⟨by omega, b, c, ?_⟩
            intro j hj1 hj2
            exact d j (by omega) hj2

/-- The backend/frontend loop as the script runs it (counter started at 0,
budget `MAX_RETRIES`): `fatal` exactly when all `MAX_RETRIES` attempts
fail. -/
theorem healthLoop_fatal_iff (probe : Nat → Bool) :
    (healthLoop probe MAX_RETRIES 0).2 = .fatal ↔
      ∀ j, j < MAX_RETRIES → probe j = false := by
  have h := (healthLoopAux_spec probe MAX_RETRIES MAX_RETRIES 0 (by omega)
    (by norm_num [MAX_RETRIES])).1
  rw [healthLoop, Nat.sub_zero, h]
  constructor
  · intro hh j hj; exact hh j (Nat.zero_le j) hj
  · intro hh j _ hj; exact hh j hj

/-- The loop as the script runs it: `success k` exactly when attempt `k`
(1-based, within the budget) succeeds and every earlier attempt fails. -/
theorem healthLoop_success_iff (probe : Nat → Bool) (k : Nat) :
    (healthLoop probe MAX_RETRIES 0).2 = .success k ↔
      (0 < k ∧ k ≤ MAX_RETRIES ∧ probe (k - 1) = true ∧
        ∀ j, j < k - 1 → probe j = false) := by
  have h := (healthLoopAux_spec probe MAX_RETRIES MAX_RETRIES 0 (by omega)
    (by norm_num [MAX_RETRIES])).2 k
  rw [healthLoop, Nat.sub_zero, h]
  constructor
  · rintro ⟨a, b, c, d⟩
    exact ⟨a, b, c, fun j hj => d j (Nat.zero_le j) hj⟩
  · rintro ⟨a, b, c, d⟩
    exact ⟨a, b, c, fun j _ hj => d j hj⟩

/-- Every value the retry counter takes stays at or below the budget. -/
theorem healthLoopAux_counters (probe : Nat → Bool) (maxRetries : Nat) :
    ∀ fuel rc, rc ≤ maxRetries →
      ∀ c ∈ (healthLoopAux probe maxRetries rc fuel).1, c ≤ maxRetries := by
  intro fuel
  induction fuel with
  | zero =>
    intro rc h c hc
    simp only [healthLoopAux, List.mem_singleton] at hc
    omega
  | succ fuel ih =>
    intro rc h c hc
    simp only [healthLoopAux] at hc
    by_cases h2 : rc < maxRetries
    · rw [if_pos h2] at hc
      cases hp : probe rc with
      | true =>
        rw [if_pos hp] at hc
        simp only [List.mem_singleton] at hc
        omega
      | false =>
        simp only [hp, Bool.false_eq_true, if_false] at hc
        by_cases h3 : rc + 1 = maxRetries
        · rw [if_pos h3] at hc
          simp only [List.mem_cons, List.mem_singleton] at hc
          rcases hc with hc | hc | hc
          · omega
          · omega
          · cases hc
        · rw [if_neg h3] at hc
          simp only [List.mem_cons] at hc
          rcases hc with hc | hc
          · omega
          · exact ih (rc + 1) (by omega) c hc
    · rw [if_neg h2] at hc
      simp only [List.mem_singleton] at hc
      omega

/-- Given enough fuel, a loop started strictly below its budget never ends
by the guard alone: it ends by the success break or the fatal exit. -/
theorem healthLoopAux_ne_fellThrough (probe : Nat → Bool) (maxRetries : Nat) :
    ∀ fuel rc, maxRetries ≤ rc + fuel → rc < maxRetries →
      (healthLoopAux probe maxRetries rc fuel).2 ≠ .fellThrough := by
  intro fuel
  induction fuel with
  | zero => intro rc h1 h2; omega
  | succ fuel ih =>
    intro rc h1 h2
    simp only [healthLoopAux, if_pos h2]
    cases hp : probe rc with
    | true => simp
    | false =>
      simp only [hp, Bool.false_eq_true, if_false]
      by_cases h3 : rc + 1 = maxRetries
      · simp [h3]
      · simp only [if_neg h3]
        exact ih (rc + 1) (by omega) (by omega)

/-! ## Helper lemmas: shape of the script's trace -/

/-- The port-availability loop only ever records teardown attempts and
still-occupied warnings. -/
theorem mem_portPhase_cases {e : Env} {ev : Event} (h : ev ∈ portPhase e) :
    ∃ p, ev = Event.portTeardown p ∨ ev = Event.portWarning p := by
  unfold portPhase at h
  rw [List.mem_flatMap] at h
  obtain ⟨p, _, hmem⟩ := h
  by_cases h1 : e.portCheck1 p = true
  · rw [if_pos h1] at hmem
    rcases List.mem_cons.mp hmem with hm | hm
    · exact ⟨p, Or.inl hm⟩
    · by_cases h2 : e.portCheck2 p = true
      · rw [if_pos h2] at hmem
        rw [if_pos h2, List.mem_singleton] at hm
        exact ⟨p, Or.inr hm⟩
      · rw [if_neg h2] at hm
        cases hm
  · rw [if_neg h1] at hmem
    cases hmem

/-- An event that is neither a port teardown nor a port warning does not
occur during the port-availability loop. -/
theorem not_mem_portPhase (e : Env) (ev : Event)
    (h1 : ∀ p, ev ≠ Event.portTeardown p)
    (h2 : ∀ p, ev ≠ Event.portWarning p) : ev ∉ portPhase e := by
  intro h
  obtain ⟨p, hp | hp⟩ := mem_portPhase_cases h
  · exact h1 p hp
  · exact h2 p hp

/-- The exit code of Sections 7-8 does not depend on the trace so far. -/
theorem sec7to8_snd (e : Env) (t t2 : List Event) :
    (sec7to8 e t).2 = (sec7to8 e t2).2 := by
  unfold sec7to8
  split_ifs <;> rfl

/-- The exit code from the frontend health check on does not depend on the
trace so far. -/
theorem sec6frontend_snd (e : Env) (t t2 : List Event) :
    (sec6frontend e t).2 = (sec6frontend e t2).2 := by
  unfold sec6frontend
  cases (healthLoop (frontendProbe e) MAX_RETRIES 0).2
  · exact sec7to8_snd e _ _
  · rfl
  · exact sec7to8_snd e _ _

/-- The exit code from the backend health check on does not depend on the
trace so far. -/
theorem sec6to8_snd (e : Env) (t t2 : List Event) :
    (sec6to8 e t).2 = (sec6to8 e t2).2 := by
  unfold sec6to8
  cases (healthLoop (backendProbe e) MAX_RETRIES 0).2
  · exact sec6frontend_snd e _ _
  · rfl
  · exact sec6frontend_snd e _ _

/-- The exit code from Section 5 on does not depend on the trace so far. -/
theorem sec5to8_snd (e : Env) (t t2 : List Event) :
    (sec5to8 e t).2 = (sec5to8 e t2).2 := by
  unfold sec5to8
  split_ifs <;> first | rfl | exact sec6to8_snd e _ _

/-- The exit code from Section 2 on does not depend on the trace so far. -/
theorem sec2to8_snd (e : Env) (t t2 : List Event) :
    (sec2to8 e t).2 = (sec2to8 e t2).2 := by
  unfold sec2to8
  split_ifs <;> first | rfl | exact sec5to8_snd e _ _

/-- Events already on the trace survive Sections 7-8. -/
theorem mem_sec7to8 {e : Env} {t : List Event} {ev : Event} (h : ev ∈ t) :
    ev ∈ (sec7to8 e t).1 := by
  unfold sec7to8
  split_ifs <;> simp [h]

/-- Events already on the trace survive the frontend health check onwards. -/
theorem mem_sec6frontend {e : Env} {t : List Event} {ev : Event} (h : ev ∈ t) :
    ev ∈ (sec6frontend e t).1 := by
  unfold sec6frontend
  cases (healthLoop (frontendProbe e) MAX_RETRIES 0).2
  · exact mem_sec7to8 (List.mem_append_left _ h)
  · exact h
  · exact mem_sec7to8 h

/-- Events already on the trace survive the backend health check onwards. -/
theorem mem_sec6to8 {e : Env} {t : List Event} {ev : Event} (h : ev ∈ t) :
    ev ∈ (sec6to8 e t).1 := by
  unfold sec6to8
  cases (healthLoop (backendProbe e) MAX_RETRIES 0).2
  · exact mem_sec6frontend (List.mem_append_left _ h)
  · exact h
  · exact mem_sec6frontend h

/-- Events already on the trace survive Section 5 onwards. -/
theorem mem_sec5to8 {e : Env} {t : List Event} {ev : Event} (h : ev ∈ t) :
    ev ∈ (sec5to8 e t).1 := by
  unfold sec5to8
  split_ifs <;> first | simp [h] | exact mem_sec6to8 (List.mem_append_left _ h)

/-- A missing docker binary is an immediate `exit 1`. -/
theorem runScript_noDocker {e : Env} (hd : e.dockerInstalled = false) :
    runScript e = ([], 1) := by
  simp [runScript, hd]

/-- A missing compose binary is an immediate `exit 1`. -/
theorem runScript_noCompose {e : Env} (hc : e.composeInstalled = false) :
    runScript e = ([], 1) := by
  cases hd : e.dockerInstalled <;> simp [runScript, hd, hc]

/-- An unreachable docker daemon is an immediate `exit 1`. -/
theorem runScript_noDaemon {e : Env} (hr : e.daemonRunning = false) :
    runScript e = ([], 1) := by
  cases hd : e.dockerInstalled <;> cases hc : e.composeInstalled <;>
    simp [runScript, hd, hc, hr]

/-- With all three tool checks passing, the script is Sections 2-8 run on
the trace the port-availability loop produced. -/
theorem runScript_tools {e : Env} (hd : e.dockerInstalled = true)
    (hc : e.composeInstalled = true) (hr : e.daemonRunning = true) :
    runScript e = sec2to8 e (portPhase e) := by
  simp [runScript, hd, hc, hr]

/-- With the four required files and directories present, Sections 2-4 are
the cleanup and the build/start, then Section 5 on. -/
theorem sec2to8_files {e : Env} {t : List Event} (h1 : e.composeFile = true)
    (h2 : e.backendDir = true) (h3 : e.portfolioDir = true)
    (h4 : e.nginxConf = true) :
    sec2to8 e t = sec5to8 e (t ++ [Event.cleanup, Event.buildStart]) := by
  simp [sec2to8, h1, h2, h3, h4, orTrue]

/-- With a required file or directory absent, Sections 2-8 collapse to an
immediate `exit 1` leaving the trace untouched. -/
theorem sec2to8_missing {e : Env} {t : List Event}
    (h : e.composeFile = false ∨ e.backendDir = false ∨
      e.portfolioDir = false ∨ e.nginxConf = false) :
    sec2to8 e t = (t, 1) := by
  unfold sec2to8
  rcases h with h | h | h | h <;> simp [h, ite_self]

/-- With a matching image line and a non-empty nginx id, Section 5 records
its enumeration and resolution and hands over to the health checks. -/
theorem sec5to8_ok {e : Env} {t : List Event} (him : e.imagesMatch = true)
    (hid : e.nginxId ≠ "") :
    sec5to8 e t = sec6to8 e (t ++ [Event.listImages, Event.listContainers,
      Event.resolvedNginx e.nginxId, Event.healthStart]) := by
  simp [sec5to8, him, hid]

/-- With no image line matching the grep pattern, `set -e` stops the script
right after the enumeration command. -/
theorem sec5to8_noImages {e : Env} {t : List Event}
    (him : e.imagesMatch = false) :
    sec5to8 e t = (t ++ [Event.listImages], 1) := by
  simp [sec5to8, him]

/-- With an empty resolved nginx id, Section 5 is a fatal `exit 1`. -/
theorem sec5to8_noNginx {e : Env} {t : List Event} (him : e.imagesMatch = true)
    (hid : e.nginxId = "") :
    sec5to8 e t = (t ++ [Event.listImages, Event.listContainers], 1) := by
  simp [sec5to8, him, hid]

/-- A fatal backend health-check loop is an immediate `exit 1`. -/
theorem sec6to8_fatal {e : Env} {t : List Event}
    (hf : (healthLoop (backendProbe e) MAX_RETRIES 0).2 = .fatal) :
    sec6to8 e t = (t, 1) := by
  unfold sec6to8
  rw [hf]

/-! ## Helper lemmas: the month grouping of the transactions route -/

/-- Reading a key after one grouped insertion: the inserted entry lands at
the end of exactly the group of its own key. -/
theorem groupLookup_addToGroup (acc : List (String × List TxnView))
    (k0 : String) (v : TxnView) (k : String) :
    groupLookup (addToGroup acc k0 v) k =
      if k0 = k then groupLookup acc k ++ [v] else groupLookup acc k := by
  induction acc with
  | nil => by_cases h : k0 = k <;> simp [addToGroup, groupLookup, h]
  | cons hd tl ih =>
    obtain ⟨k1, vs⟩ := hd
    by_cases h01 : k1 = k0
    · subst h01
      by_cases h1k : k1 = k
      · subst h1k
        simp [addToGroup, groupLookup]
      · simp [addToGroup, groupLookup, h1k]
    · by_cases h1k : k1 = k
      · subst h1k
        have h0k : ¬ k0 = k1 := fun h => h01 h.symm
        simp [addToGroup, groupLookup, h01, h0k]
      · simp [addToGroup, groupLookup, h01, h1k, ih]

/-- Reading a key after folding a list of transactions into the groups:
the group collects, in order, the views of exactly the transactions whose
month-year key matches. -/
theorem groupLookup_foldl (l : List Txn) :
    ∀ (acc : List (String × List TxnView)) (k : String),
      groupLookup
          (l.foldl
            (fun acc t => addToGroup acc (monthYear t.timestamp) (txnView t))
            acc) k =
        groupLookup acc k ++
          (l.filter fun t => monthYear t.timestamp == k).map txnView := by
  induction l with
  | nil => intro acc k; simp
  | cons t l ih =>
    intro acc k
    simp only [List.foldl_cons, List.filter_cons]
    rw [ih, groupLookup_addToGroup]
    by_cases h : monthYear t.timestamp = k
    · simp [h]
    · simp [h]

/-- One grouped insertion adds exactly the inserted key to the key set. -/
theorem groupKeys_addToGroup (acc : List (String × List TxnView))
    (k0 : String) (v : TxnView) (k : String) :
    k ∈ groupKeys (addToGroup acc k0 v) ↔ k ∈ groupKeys acc ∨ k = k0 := by
  induction acc with
  | nil => simp [addToGroup, groupKeys]
  | cons hd tl ih =>
    obtain ⟨k1, vs⟩ := hd
    by_cases h01 : k1 = k0
    · subst h01
      simp [addToGroup, groupKeys, List.mem_cons]
      tauto
    · simp [addToGroup, groupKeys, h01, List.mem_cons] at ih ⊢
      rw [ih]
      tauto

/-- The key set after folding a list of transactions into the groups:
exactly the starting keys plus the month-year key of each transaction. -/
theorem groupKeys_foldl (l : List Txn) :
    ∀ (acc : List (String × List TxnView)) (k : String),
      (k ∈ groupKeys
          (l.foldl
            (fun acc t => addToGroup acc (monthYear t.timestamp) (txnView t))
            acc) ↔
        k ∈ groupKeys acc ∨ ∃ t ∈ l, monthYear t.timestamp = k) := by
  induction l with
  | nil => intro acc k; simp
  | cons t l ih =>
    intro acc k
    simp only [List.foldl_cons]
    rw [ih, groupKeys_addToGroup]
    simp only [List.mem_cons]
    constructor
    · rintro ((h | h) | ⟨t2, ht2, hk⟩)
      · exact Or.inl h
      · exact Or.inr ⟨t, Or.inl rfl, h.symm⟩
      · exact Or.inr ⟨t2, Or.inr ht2, hk⟩
    · rintro (h | ⟨t2, ht2 | ht2, hk⟩)
      · exact Or.inl (Or.inl h)
      · exact Or.inl (Or.inr (ht2 ▸ hk.symm))
      · exact Or.inr ⟨t2, ht2, hk⟩

/-! ## The claims -/

/-- Claim C1, amended: when a required configuration file or project
directory is absent, the script halts with exit 1 and the cleanup phase
(`docker-compose down -v`) and the build/start phase
(`docker-compose up --build -d`) are never reached.  (The original claim's
stronger "before any container action" fails: the port-availability check
of Section 1 runs first and may itself issue a `docker-compose down`; see
the counterexample.) -/
theorem c1_missing_file_halts_before_cleanup_and_build (e : Env)
    (h : e.composeFile = false ∨ e.backendDir = false ∨
      e.portfolioDir = false ∨ e.nginxConf = false) :
    (runScript e).2 = 1 ∧ Event.cleanup ∉ (runScript e).1 ∧
      Event.buildStart ∉ (runScript e).1 := by
  have hport1 : Event.cleanup ∉ portPhase e :=
    not_mem_portPhase e _ (fun p hp => by cases hp) (fun p hp => by cases hp)
  have hport2 : Event.buildStart ∉ portPhase e :=
    not_mem_portPhase e _ (fun p hp => by cases hp) (fun p hp => by cases hp)
  cases hd : e.dockerInstalled with
  | false => simp [runScript, hd]
  | true =>
    cases hc : e.composeInstalled with
    | false => simp [runScript, hd, hc]
    | true =>
      cases hr : e.daemonRunning with
      | false => simp [runScript, hd, hc, hr]
      | true =>
        rw [runScript_tools hd hc hr, sec2to8_missing h]
        exact ⟨rfl, hport1, hport2⟩

/-- Witness for the amended C1: the compose file absent, everything else
fine — the run exits 1. -/
theorem c1_missing_file_witness :
    envFileMissing.composeFile = false ∧ (runScript envFileMissing).2 = 1 :=
  ⟨rfl, (c1_missing_file_halts_before_cleanup_and_build envFileMissing
    (Or.inl rfl)).1⟩

/-- Claim C1 counterexample: with port 80 occupied and the compose file
absent, the run halts with exit 1 at file validation, yet a container
action (the port-availability teardown `docker-compose down`) was already
attempted — so the claim's "halts before any container action is
attempted" is false on this execution. -/
theorem c1_counterexample :
    envC1.composeFile = false ∧ (runScript envC1).2 = 1 ∧
      ¬ ∀ ev ∈ (runScript envC1).1, isContainerAction ev = false := by
  refine ⟨rfl, rfl, fun h => ?_⟩
  have hmem : Event.portTeardown 80 ∈ (runScript envC1).1 := by decide
  have := h _ hmem
  simp [isContainerAction] at this

/-- Claim C2: with the attempt budget `MAX_RETRIES = 10`, the health-check
loop returns success at attempt `K` (1 ≤ K ≤ 10) exactly when the probe
succeeds on attempt `K` and fails on each of the `K - 1` prior attempts,
and it exits fatally exactly when all 10 attempts fail. -/
theorem c2_health_poll_success_and_failure (probe : Nat → Bool) (K : Nat)
    (h1 : 1 ≤ K) (h2 : K ≤ MAX_RETRIES) :
    ((healthLoop probe MAX_RETRIES 0).2 = .success K ↔
        (probe (K - 1) = true ∧ ∀ j, j < K - 1 → probe j = false)) ∧
      ((healthLoop probe MAX_RETRIES 0).2 = .fatal ↔
        ∀ j, j < MAX_RETRIES → probe j = false) := by
  constructor
  · rw [healthLoop_success_iff]
    constructor
    · rintro ⟨_, _, c, d⟩
      exact ⟨c, d⟩
    · rintro ⟨c, d⟩
      exact ⟨by omega, h2, c, d⟩
  · exact healthLoop_fatal_iff probe

/-- Witness for C2 at the probe that first succeeds on attempt 2. -/
theorem c2_health_poll_witness :
    ((1 : Nat) ≤ 2 ∧ (2 : Nat) ≤ MAX_RETRIES) ∧
      (((healthLoop (fun i => decide (i = 1)) MAX_RETRIES 0).2 =
            .success 2 ↔
          ((fun i => decide (i = 1)) (2 - 1) = true ∧
            ∀ j, j < 2 - 1 → (fun i => decide (i = 1)) j = false)) ∧
        ((healthLoop (fun i => decide (i = 1)) MAX_RETRIES 0).2 = .fatal ↔
          ∀ j, j < MAX_RETRIES → (fun i => decide (i = 1)) j = false)) :=
  ⟨⟨by decide, by decide⟩,
    c2_health_poll_success_and_failure (fun i => decide (i = 1)) 2
      (by decide) (by decide)⟩

/-- Claim C3: when every backend health-check attempt fails, the run halts
with exit 1 at the health-check phase; the build/start has already run,
and nothing after the build/start on the trace is a container action (no
teardown on the failure path — containers are left running). -/
theorem c3_backend_exhaustion_halts_after_build (e : Env)
    (hd : e.dockerInstalled = true) (hc : e.composeInstalled = true)
    (hr : e.daemonRunning = true) (h1 : e.composeFile = true)
    (h2 : e.backendDir = true) (h3 : e.portfolioDir = true)
    (h4 : e.nginxConf = true) (him : e.imagesMatch = true)
    (hid : e.nginxId ≠ "")
    (hb : ∀ i, i < MAX_RETRIES →
      e.backendLogin i = false ∧ e.backendRoot i = false) :
    (runScript e).2 = 1 ∧
      (runScript e).1 = portPhase e ++ [Event.cleanup, Event.buildStart,
        Event.listImages, Event.listContainers,
        Event.resolvedNginx e.nginxId, Event.healthStart] ∧
      ∀ ev ∈ [Event.listImages, Event.listContainers,
        Event.resolvedNginx e.nginxId, Event.healthStart],
        isContainerAction ev = false := by
  have hfatal : (healthLoop (backendProbe e) MAX_RETRIES 0).2 = .fatal := by
    rw [healthLoop_fatal_iff]
    intro j hj
    have := hb j hj
    simp [backendProbe, this.1, this.2]
  rw [runScript_tools hd hc hr, sec2to8_files h1 h2 h3 h4,
    sec5to8_ok him hid, sec6to8_fatal hfatal]
  refine ⟨rfl, by simp, ?_⟩
  intro ev hev
  simp only [List.mem_cons, List.not_mem_nil, or_false] at hev
  rcases hev with rfl | rfl | rfl | rfl <;> rfl

/-- Witness for C3: the backend dead on every attempt, everything else
fine — the run exits 1. -/
theorem c3_backend_exhaustion_witness :
    envC3.nginxId ≠ "" ∧ (runScript envC3).2 = 1 :=
  ⟨by decide,
    (c3_backend_exhaustion_halts_after_build envC3 rfl rfl rfl rfl rfl rfl
      rfl rfl (by decide) (fun i _ => ⟨rfl, rfl⟩)).1⟩

/-- Claim C4: whatever status the Section 3 teardown command reports
(`e.downVStatus` is unconstrained — in particular the "nothing to remove"
error of a fresh state), the cleanup phase never halts the run: the
cleanup is recorded and the build/start phase is always reached. -/
theorem c4_cleanup_phase_never_halts (e : Env)
    (hd : e.dockerInstalled = true) (hc : e.composeInstalled = true)
    (hr : e.daemonRunning = true) (h1 : e.composeFile = true)
    (h2 : e.backendDir = true) (h3 : e.portfolioDir = true)
    (h4 : e.nginxConf = true) :
    Event.cleanup ∈ (runScript e).1 ∧ Event.buildStart ∈ (runScript e).1 := by
  rw [runScript_tools hd hc hr, sec2to8_files h1 h2 h3 h4]
  constructor <;> exact mem_sec5to8 (by simp)

/-- Witness for C4: the teardown command fails with status 7 and the
build/start phase still runs. -/
theorem c4_cleanup_witness :
    Event.cleanup ∈ (runScript envC4).1 ∧
      Event.buildStart ∈ (runScript envC4).1 :=
  c4_cleanup_phase_never_halts envC4 rfl rfl rfl rfl rfl rfl rfl

/-- Claim C5: an occupied required port triggers a teardown attempt; if
the re-check still finds it occupied only a warning is recorded; and the
exit code of the whole run never depends on the port occupancy results —
a persistent port conflict cannot cause a non-zero halt. -/
theorem c5_port_conflict_nonfatal (e : Env) (p : Nat)
    (hp : p ∈ REQUIRED_PORTS) (h1 : e.portCheck1 p = true) :
    Event.portTeardown p ∈ portPhase e ∧
      (e.portCheck2 p = true → Event.portWarning p ∈ portPhase e) ∧
      ∀ pc1 pc2,
        (runScript { e with portCheck1 := pc1, portCheck2 := pc2 }).2 =
          (runScript e).2 := by
  refine ⟨?_, ?_, ?_⟩
  · unfold portPhase
    rw [List.mem_flatMap]
    exact ⟨p, hp, by simp [h1]⟩
  · intro h2
    unfold portPhase
    rw [List.mem_flatMap]
    exact ⟨p, hp, by simp [h1, h2]⟩
  · intro pc1 pc2
    have hup : ∀ t,
        sec2to8 { e with portCheck1 := pc1, portCheck2 := pc2 } t =
          sec2to8 e t := fun t => rfl
    by_cases hd : e.dockerInstalled = true
    · by_cases hc : e.composeInstalled = true
      · by_cases hr : e.daemonRunning = true
        · rw [runScript_tools
              (e := { e with portCheck1 := pc1, portCheck2 := pc2 }) hd hc hr,
            runScript_tools hd hc hr, hup]
          exact sec2to8_snd e _ _
        · rw [Bool.not_eq_true] at hr
          rw [runScript_noDaemon
              (e := { e with portCheck1 := pc1, portCheck2 := pc2 }) hr,
            runScript_noDaemon hr]
      · rw [Bool.not_eq_true] at hc
        rw [runScript_noCompose
            (e := { e with portCheck1 := pc1, portCheck2 := pc2 }) hc,
          runScript_noCompose hc]
    · rw [Bool.not_eq_true] at hd
      rw [runScript_noDocker
          (e := { e with portCheck1 := pc1, portCheck2 := pc2 }) hd,
        runScript_noDocker hd]

/-- Witness for C5: port 80 occupied before and after the cleanup
attempt — the teardown is recorded. -/
theorem c5_port_conflict_witness :
    (80 ∈ REQUIRED_PORTS ∧ envC5.portCheck1 80 = true) ∧
      Event.portTeardown 80 ∈ portPhase envC5 :=
  ⟨⟨by decide, by decide⟩,
    (c5_port_conflict_nonfatal envC5 80 (by decide) (by decide)).1⟩

/-- Claim C6: throughout either health-check loop the retry counter never
exceeds `MAX_RETRIES`, and the loop terminates by the success break or the
fatal exit (never by the guard alone). -/
theorem c6_retry_counter_invariant (probe : Nat → Bool) :
    (∀ c ∈ (healthLoop probe MAX_RETRIES 0).1, c ≤ MAX_RETRIES) ∧
      ((∃ k, (healthLoop probe MAX_RETRIES 0).2 = .success k) ∨
        (healthLoop probe MAX_RETRIES 0).2 = .fatal) := by
  constructor
  · intro c hc
    exact healthLoopAux_counters probe MAX_RETRIES _ 0 (by omega) c hc
  · have h := healthLoopAux_ne_fellThrough probe MAX_RETRIES MAX_RETRIES 0
      (by omega) (by norm_num [MAX_RETRIES])
    rw [healthLoop, Nat.sub_zero]
    cases hres : (healthLoopAux probe MAX_RETRIES 0 MAX_RETRIES).2 with
    | success k => exact Or.inl ⟨k, rfl⟩
    | fatal => exact Or.inr rfl
    | fellThrough => exact absurd hres h

/-- Claim C7: after a successful build with a matching image line, the run
halts with exit 1 before the health-check phase exactly when the resolved
nginx container id is empty; a non-empty id is recorded and the
health-check phase is reached. -/
theorem c7_nginx_resolution (e : Env)
    (hd : e.dockerInstalled = true) (hc : e.composeInstalled = true)
    (hr : e.daemonRunning = true) (h1 : e.composeFile = true)
    (h2 : e.backendDir = true) (h3 : e.portfolioDir = true)
    (h4 : e.nginxConf = true) (him : e.imagesMatch = true) :
    (((runScript e).2 = 1 ∧ Event.healthStart ∉ (runScript e).1) ↔
        e.nginxId = "") ∧
      (e.nginxId ≠ "" →
        Event.resolvedNginx e.nginxId ∈ (runScript e).1 ∧
          Event.healthStart ∈ (runScript e).1) := by
  rw [runScript_tools hd hc hr, sec2to8_files h1 h2 h3 h4]
  have hnoHS : Event.healthStart ∉ portPhase e :=
    not_mem_portPhase e _ (fun p hp => by cases hp) (fun p hp => by cases hp)
  by_cases hid : e.nginxId = ""
  · rw [sec5to8_noNginx him hid]
    constructor
    · constructor
      · intro _
        exact hid
      · intro _
        refine ⟨rfl, ?_⟩
        simp [hnoHS]
    · intro hne
      exact absurd hid hne
  · rw [sec5to8_ok him hid]
    have hin : Event.healthStart ∈
        (sec6to8 e (portPhase e ++ [Event.cleanup, Event.buildStart] ++
          [Event.listImages, Event.listContainers,
            Event.resolvedNginx e.nginxId, Event.healthStart])).1 :=
      mem_sec6to8 (by simp)
    constructor
    · constructor
      · rintro ⟨_, hno⟩
        exact absurd hin hno
      · intro h
        exact absurd h hid
    · intro _
      exact ⟨mem_sec6to8 (by simp), hin⟩

/-- Witness for C7: no nginx container resolved — the run exits 1 without
reaching the health checks. -/
theorem c7_nginx_resolution_witness :
    (runScript envC7).2 = 1 ∧ Event.healthStart ∉ (runScript envC7).1 :=
  ((c7_nginx_resolution envC7 rfl rfl rfl rfl rfl rfl rfl rfl).1).mpr rfl

/-- Claim C9: under `set -e`, when the image listing matches none of the
grep patterns the run halts with exit 1 right after the enumeration: the
build/start already ran, but neither the `docker ps` listing nor the nginx
container resolution is reached. -/
theorem c9_image_enumeration_fatal (e : Env)
    (hd : e.dockerInstalled = true) (hc : e.composeInstalled = true)
    (hr : e.daemonRunning = true) (h1 : e.composeFile = true)
    (h2 : e.backendDir = true) (h3 : e.portfolioDir = true)
    (h4 : e.nginxConf = true) (him : e.imagesMatch = false) :
    (runScript e).2 = 1 ∧ Event.buildStart ∈ (runScript e).1 ∧
      Event.listImages ∈ (runScript e).1 ∧
      Event.listContainers ∉ (runScript e).1 ∧
      ∀ id, Event.resolvedNginx id ∉ (runScript e).1 := by
  rw [runScript_tools hd hc hr, sec2to8_files h1 h2 h3 h4,
    sec5to8_noImages him]
  have hpc : Event.listContainers ∉ portPhase e :=
    not_mem_portPhase e _ (fun p hp => by cases hp) (fun p hp => by cases hp)
  have hpr : ∀ id, Event.resolvedNginx id ∉ portPhase e := fun id =>
    not_mem_portPhase e _ (fun p hp => by cases hp) (fun p hp => by cases hp)
  refine ⟨rfl, by simp, by simp, ?_, ?_⟩
  · simp [hpc]
  · intro id
    simp [hpr id]

/-- Witness for C9: no image line matches — the run exits 1. -/
theorem c9_image_enumeration_witness :
    envC9.imagesMatch = false ∧ (runScript envC9).2 = 1 :=
  ⟨rfl, (c9_image_enumeration_fatal envC9 rfl rfl rfl rfl rfl rfl rfl
    rfl).1⟩

/-- Claim C10: a single health-check attempt succeeds when either of its
two probes does (backend: strict login-path probe or plain root probe;
frontend: strict root probe or the "Pixel River" page marker), so the
loop can succeed — on the very first attempt — with the login path (resp.
the strict probe) never responding at all. -/
theorem c10_probe_disjunction (e : Env) (i : Nat)
    (hroot : e.backendRoot i = true) (hmark : e.frontendMarker i = true) :
    backendProbe e i = true ∧ frontendProbe e i = true ∧
      ((∀ j, e.backendLogin j = false) → e.backendRoot 0 = true →
        (healthLoop (backendProbe e) MAX_RETRIES 0).2 = .success 1) ∧
      ((∀ j, e.frontendStrict j = false) → e.frontendMarker 0 = true →
        (healthLoop (frontendProbe e) MAX_RETRIES 0).2 = .success 1) := by
  refine ⟨by simp [backendProbe, hroot], by simp [frontendProbe, hmark],
    ?_, ?_⟩
  · intro hlog h0
    rw [healthLoop_success_iff]
    refine ⟨by omega, by norm_num [MAX_RETRIES], ?_, ?_⟩
    · simp [backendProbe, h0]
    · intro _ hj
      omega
  · intro hstrict h0
    rw [healthLoop_success_iff]
    refine ⟨by omega, by norm_num [MAX_RETRIES], ?_, ?_⟩
    · simp [frontendProbe, h0]
    · intro _ hj
      omega

/-- Witness for C10: the login path and strict probe dead, the alternate
probes green — the backend loop succeeds on attempt 1. -/
theorem c10_probe_disjunction_witness :
    (healthLoop (backendProbe envC10) MAX_RETRIES 0).2 = .success 1 :=
  (c10_probe_disjunction envC10 0 rfl rfl).2.2.1 (fun _ => rfl) rfl

/-- Claim C8: for every store, user identifier and month key, the group
the route returns under that key consists of exactly the views (type,
amount, timestamp preserved) of the stored transactions whose email
matches the identifier and whose timestamp falls in that calendar
month-year, in store order; and a key occurs in the response exactly when
some matching transaction has that month-year. -/
theorem c8_transactions_grouped_by_month (store : List Txn)
    (email k : String) :
    groupLookup (apiTransactions store email) k =
        ((store.filter fun t =>
          t.email == email && monthYear t.timestamp == k).map txnView) ∧
      (k ∈ groupKeys (apiTransactions store email) ↔
        ∃ t ∈ store, t.email = email ∧ monthYear t.timestamp = k) := by
  constructor
  · rw [apiTransactions, groupByMonth, groupLookup_foldl]
    simp only [groupLookup, List.nil_append]
    rw [List.filter_filter]
    congr 1
    apply List.filter_congr
    intro t _
    exact Bool.and_comm _ _
  · rw [apiTransactions, groupByMonth, groupKeys_foldl]
    simp only [groupKeys, List.map_nil, List.not_mem_nil, false_or]
    constructor
    · rintro ⟨t, ht, hk⟩
      rw [List.mem_filter] at ht
      exact ⟨t, ht.1, by simpa using ht.2, hk⟩
    · rintro ⟨t, ht, hemail, hk⟩
      exact ⟨t, List.mem_filter.mpr ⟨ht, by simp [hemail]⟩, hk⟩
